import Mathlib

/-!
Verification of the persistence pipeline in `src/pfeffel/clean.py`.

The script delegates parsing to an external loader (`load_clean_data`) and then
orchestrates filesystem writes: a binary (pickle) snapshot of the trip table, an
optional columnar (parquet) copy with catch-and-degrade fallback, and three
serializations of the station-id-to-names mapping, each in a primary
(timestamped or base) copy and a stable "latest" copy.

The embedding below models a run as the ordered list of observable filesystem
events (loader invocation, directory creation, file writes) together with the
returned path triple.  File contents are abstracted to constructors recording
which object was serialized; the trip table itself is an opaque type parameter.
Failure of a parquet write (the one recoverable error in the script) is
injected through explicit boolean oracles, one per `to_parquet` call site.
-/

namespace Pfeffel

/-- Python string comparison as used by `sorted`: lexicographic on code points,
embedded as the lexicographic order on the underlying character lists. -/
def pyStrLe (a b : String) : Prop := a.data ≤ b.data

instance : DecidableRel pyStrLe :=
  fun a b => inferInstanceAs (Decidable (a.data ≤ b.data))

instance : IsTotal String pyStrLe := ⟨fun a b => le_total a.data b.data⟩

instance : IsTrans String pyStrLe := ⟨fun _ _ _ hab hbc => le_trans hab hbc⟩

/-- Python `sorted` on a list of strings (ascending, lexicographic on code
points).  Insertion sort is extensionally equal to Python's stable sort for
this total order. -/
def pySorted (l : List String) : List String := List.insertionSort pyStrLe l

/-- The station mapping: station identifier (Python `int`, possibly a numpy
integer subtype) to the set of observed name variants.  A Python set is
modelled by the list of its (distinct) elements in iteration order. -/
abbrev StationMap := List (Int × List String)

/-- Lines 87-90 of clean.py: `{int(k): sorted(list(v)) for k, v in
station_id_to_names.items()}`.  Keys are already plain integers in the model,
so `int(k)` is the identity; each set value is replaced by its sorted list. -/
def serializable_station_map (m : StationMap) : StationMap :=
  m.map (fun kv => (kv.1, pySorted kv.2))

/-- The JSON object written by `json.dump` for a mapping with integer keys:
JSON object keys are strings, so each integer key is rendered in decimal. -/
def jsonStationMap (m : StationMap) : List (String × List String) :=
  (serializable_station_map m).map (fun kv => (toString kv.1, kv.2))

/-- Abstract file contents: which object was serialized, and in which format. -/
inductive Content (α : Type) where
  | pickleDf (df : α)
  | parquetDf (df : α)
  | jsonMap (m : StationMap)
  | pickleMap (m : StationMap)
  | pickleRaw (m : StationMap)
  deriving DecidableEq

/-- Observable events of a run, in program order. -/
inductive Event (α : Type) where
  | loadCleanData (bikefolder : String)
  | mkdirs (path : String)
  | write (path : String) (content : Content α)
  deriving DecidableEq

/-- Model of `os.path.join(dir, name)` for the flat joins used by the script. -/
def os_path_join (dir name : String) : String := dir ++ "/" ++ name

/-- The conditional file-name pattern of `clean.py` lines 47-61:
`f"<artifact>_{ts}.<ext>" if ts else "<artifact>.<ext>"`.  Python truthiness of
the optional timestamp string is mirrored: `None` and the empty string both
select the unsuffixed base name. -/
def fmtName (artifact ext : String) (ts : Option String) : String :=
  match ts with
  | some t => if t.isEmpty then artifact ++ "." ++ ext else artifact ++ "_" ++ t ++ "." ++ ext
  | none => artifact ++ "." ++ ext

/-- A wall-clock reading, as the fields `strftime("%Y%m%d_%H%M")` consumes. -/
structure ClockTime where
  year : Nat
  month : Nat
  day : Nat
  hour : Nat
  minute : Nat
  deriving DecidableEq

/-- Two-digit zero-padded decimal rendering of a field value, as `strftime`
produces for `%m`, `%d`, `%H`, `%M` on their in-range values (< 100). -/
def pad2 (n : Nat) : List Char := [Nat.digitChar (n / 10 % 10), Nat.digitChar (n % 10)]

/-- Four-digit decimal rendering of the year, as `strftime` produces for `%Y`
on four-digit years (1000-9999, zero-padded below that). -/
def pad4 (n : Nat) : List Char :=
  [Nat.digitChar (n / 1000 % 10), Nat.digitChar (n / 100 % 10),
   Nat.digitChar (n / 10 % 10), Nat.digitChar (n % 10)]

/-- Model of `datetime.now().strftime("%Y%m%d_%H%M")` (clean.py lines 18-19):
the external time-formatting call rendered on an explicit clock reading. -/
def strftime_YmdHM (now : ClockTime) : String :=
  String.mk (pad4 now.year ++ pad2 now.month ++ pad2 now.day ++
    ['_'] ++ pad2 now.hour ++ pad2 now.minute)

/-- Checks the `YYYYMMDD_HHMM` shape: 13 characters, 8 digits, an underscore,
then 4 digits. -/
def isTimestampFormat (s : String) : Bool :=
  s.length == 13 &&
  (s.data.take 8).all Char.isDigit &&
  (s.data.drop 8).take 1 == ['_'] &&
  (s.data.drop 9).all Char.isDigit

/-- A directory tree as the list of existing directories, each directory a list
of path components. -/
abbrev DirTree := List (List String)

/-- The proper prefixes of a component path, shortest first: the directories
`os.makedirs` creates on the way to `p`. -/
def ancestors (p : List String) : List (List String) :=
  (List.range p.length).map (fun i => p.take (i + 1))

/-- Model of `os.makedirs(path, exist_ok=...)`: creates the directory and every
missing ancestor; raises `FileExistsError` when the target exists and
`exist_ok` is false. -/
def os_makedirs (fs : DirTree) (p : List String) (exist_ok : Bool) :
    Except String DirTree :=
  if decide (p ∈ fs) && !exist_ok then Except.error "FileExistsError"
  else Except.ok (fs ++ (ancestors p).filter (fun q => !decide (q ∈ fs)))

/-- Lines 22-23 of clean.py: `os.makedirs(path, exist_ok=True)`. -/
def ensure_dir (fs : DirTree) (p : List String) : Except String DirTree :=
  os_makedirs fs p true

/-- The block of "latest"-copy writes, `clean.py` lines 101-126.  The latest
parquet copy is attempted only when parquet output was requested and the
primary parquet write succeeded (`write_parquet and parquet_fpath is not
None`), and its own failure is caught and skipped. -/
def latestWrites (output_dir : String) (df : α) (station_id_to_names : StationMap)
    (write_parquet parquet_ok latest_parquet_ok : Bool) : List (Event α) :=
  Event.write (os_path_join output_dir "cleaned_data_latest.pickle")
      (Content.pickleDf df) ::
  ((if write_parquet && parquet_ok && latest_parquet_ok then
      [Event.write (os_path_join output_dir "cleaned_data_latest.parquet")
        (Content.parquetDf df)]
    else []) ++
   [Event.write (os_path_join output_dir "station_id_to_names.json")
      (Content.jsonMap (serializable_station_map station_id_to_names)),
    Event.write (os_path_join output_dir "station_id_to_names_latest.pickle")
      (Content.pickleMap (serializable_station_map station_id_to_names)),
    Event.write (os_path_join output_dir "station_names_latest.pickle")
      (Content.pickleRaw station_id_to_names)])

/-- The returned triple and the event trace of a run of `create_clean_data`. -/
structure CleanResult (α : Type) where
  trace : List (Event α)
  pickle_fpath : String
  parquet_fpath : Option String
  station_map_fpath : String
  deriving DecidableEq

/-- The function `create_clean_data` (clean.py lines 26-128).  The loader's outputs `df` and
`station_id_to_names` are parameters (the loader is an external collaborator);
`tsNow` is the formatted wall-clock string read when timestamping is enabled;
`parquet_ok` and `latest_parquet_ok` inject success or failure of the two
`to_parquet` call sites.  A failed parquet write produces no file and, at the
primary site, resets the returned parquet path to `None`. -/
def create_clean_data (df : α) (station_id_to_names : StationMap)
    (bikefolder output_dir tsNow : String)
    (write_parquet timestamp_output parquet_ok latest_parquet_ok : Bool) :
    CleanResult α :=
  let ts : Option String := if timestamp_output then some tsNow else none
  let pickle_fpath := os_path_join output_dir (fmtName "cleaned_data" "pickle" ts)
  let parquet_fpath := os_path_join output_dir (fmtName "cleaned_data" "parquet" ts)
  let station_map_fpath :=
    os_path_join output_dir (fmtName "station_id_to_names" "json" ts)
  let station_map_pickle_fpath :=
    os_path_join output_dir (fmtName "station_id_to_names" "pickle" ts)
  let station_names_pickle_fpath :=
    os_path_join output_dir (fmtName "station_names" "pickle" ts)
  let sm := serializable_station_map station_id_to_names
  { trace :=
      Event.loadCleanData bikefolder ::
      Event.mkdirs output_dir ::
      Event.write pickle_fpath (Content.pickleDf df) ::
      ((if write_parquet && parquet_ok then
          [Event.write parquet_fpath (Content.parquetDf df)]
        else []) ++
       (Event.write station_map_fpath (Content.jsonMap sm) ::
        Event.write station_map_pickle_fpath (Content.pickleMap sm) ::
        Event.write station_names_pickle_fpath
          (Content.pickleRaw station_id_to_names) ::
        latestWrites output_dir df station_id_to_names
          write_parquet parquet_ok latest_parquet_ok)),
    pickle_fpath := pickle_fpath,
    parquet_fpath :=
      if write_parquet && parquet_ok then some parquet_fpath else none,
    station_map_fpath := station_map_fpath }

/-- The stations-only branch of `main` (clean.py lines 190-216): invoke the
loader, then write the raw set-valued station-names pickle under its
timestamped or base name and under the `station_names_latest.pickle` name.
No directory creation happens on this path. -/
def main_only_stations (α : Type) (station_id_to_names : StationMap)
    (csv_dir output_dir tsNow : String) (timestamp_output : Bool) :
    List (Event α) :=
  let ts : Option String := if timestamp_output then some tsNow else none
  [Event.loadCleanData csv_dir,
   Event.write (os_path_join output_dir (fmtName "station_names" "pickle" ts))
     (Content.pickleRaw station_id_to_names),
   Event.write (os_path_join output_dir "station_names_latest.pickle")
     (Content.pickleRaw station_id_to_names)]

/-- Lines 184-185 of clean.py: `args.csv_dir or default_csv_dir` — a `None`
argument or an empty argument string (both falsy) select the
configuration-derived default. -/
def resolve_dir (arg : Option String) (dflt : String) : String :=
  match arg with
  | none => dflt
  | some s => if s.isEmpty then dflt else s

/-- Modelled from the spec: the binary serialization backend (`pandas`
`to_pickle` and `read_pickle`) is external to this repository; its contract is
that reloading a pickle snapshot reconstructs an equal object.  Reading any
other content kind at a pickle call site yields nothing. -/
def read_pickle (c : Content α) : Option α :=
  match c with
  | Content.pickleDf df => some df
  | _ => none

/-- The path a write event targets, if any. -/
def eventPath : Event α → Option String
  | Event.write p _ => some p
  | _ => none

/-- The path-content pairs of the write events of a trace, in order. -/
def writesIn (t : List (Event α)) : List (String × Content α) :=
  t.filterMap (fun e =>
    match e with
    | Event.write p c => some (p, c)
    | _ => none)

/-- Whether an event is a file write. -/
def isWrite : Event α → Bool
  | Event.write _ _ => true
  | _ => false

/-- Whether an event is a directory creation. -/
def isMkdirs : Event α → Bool
  | Event.mkdirs _ => true
  | _ => false

/-- Whether an event writes the trip table (in either format). -/
def isTripWrite : Event α → Bool
  | Event.write _ (Content.pickleDf _) => true
  | Event.write _ (Content.parquetDf _) => true
  | _ => false

/-- Whether an event writes the JSON station map. -/
def isJsonWrite : Event α → Bool
  | Event.write _ (Content.jsonMap _) => true
  | _ => false

/-- Whether an event writes the sorted-list station-map pickle. -/
def isMapPickleWrite : Event α → Bool
  | Event.write _ (Content.pickleMap _) => true
  | _ => false

/-- The contents written by a trace, in order. -/
def contentsIn (t : List (Event α)) : List (Content α) :=
  t.filterMap (fun e =>
    match e with
    | Event.write _ c => some c
    | _ => none)

/-! ## Helper lemmas -/

/-- Joining distinct names under one directory yields distinct paths. -/
theorem os_path_join_right_inj {d a b : String} :
    os_path_join d a = os_path_join d b ↔ a = b := by
  constructor
  · intro h
    have h2 : (d ++ "/").data ++ a.data = (d ++ "/").data ++ b.data := by
      have h3 := congrArg String.data h
      simpa [os_path_join, String.data_append, List.append_assoc] using h3
    exact String.ext (List.append_cancel_left h2)
  · intro h
    rw [h]

/-- Every character emitted for a zero-padded decimal field is a digit. -/
theorem digitChar_mod_isDigit (n : Nat) : (Nat.digitChar (n % 10)).isDigit = true :=
  (by decide : ∀ k, k < 10 → (Nat.digitChar k).isDigit = true) _ (Nat.mod_lt _ (by omega))

/-- The rendering `pad2` agrees with the two-wide zero-padding of `Nat.repr` on the in-range
field values `strftime` receives. -/
theorem pad2_eq_padded_repr :
    ∀ n, n < 100 →
      pad2 n = (if n < 10 then '0' :: (Nat.repr n).data else (Nat.repr n).data) := by
  decide

example : pad4 2024 = (Nat.repr 2024).data := by decide

example : pad4 1000 = (Nat.repr 1000).data := by decide

/-- The trace of `create_clean_data` splits into the primary segment (loader
call, directory creation, primary writes) followed by the latest-copy block. -/
theorem create_trace_decomp (df : α) (m : StationMap) (bf out tsNow : String)
    (wp ts pOk lOk : Bool) :
    (create_clean_data df m bf out tsNow wp ts pOk lOk).trace =
      (Event.loadCleanData bf :: Event.mkdirs out ::
       Event.write (os_path_join out
           (fmtName "cleaned_data" "pickle" (if ts then some tsNow else none)))
         (Content.pickleDf df) ::
       ((if wp && pOk then
           [Event.write (os_path_join out
               (fmtName "cleaned_data" "parquet" (if ts then some tsNow else none)))
             (Content.parquetDf df)]
         else []) ++
        [Event.write (os_path_join out
            (fmtName "station_id_to_names" "json" (if ts then some tsNow else none)))
          (Content.jsonMap (serializable_station_map m)),
         Event.write (os_path_join out
            (fmtName "station_id_to_names" "pickle" (if ts then some tsNow else none)))
          (Content.pickleMap (serializable_station_map m)),
         Event.write (os_path_join out
            (fmtName "station_names" "pickle" (if ts then some tsNow else none)))
          (Content.pickleRaw m)])) ++
      latestWrites out df m wp pOk lOk := by
  cases hwp : wp && pOk <;> simp [create_clean_data, hwp]

/-- A timestamped artifact name cannot be `station_id_to_names_latest.json`
whenever the artifact and extension lengths do not sum to 16: the timestamp
contributes 13 characters while the target name has 31. -/
theorem fmtName_ts_ne_latest_json (a e tsNow : String) (hlen : tsNow.length = 13)
    (hae : a.length + e.length ≠ 16) :
    "station_id_to_names_latest.json" ≠ fmtName a e (some tsNow) := by
  intro h
  have hne : tsNow.isEmpty = false := by
    cases he : tsNow.isEmpty
    · rfl
    · rw [(String.isEmpty_iff tsNow).1 he] at hlen
      exact absurd hlen (by decide)
  simp only [fmtName, hne, Bool.false_eq_true, if_false] at h
  have hl := congrArg String.length h
  simp only [String.length_append, hlen] at hl
  have hu : ("_" : String).length = 1 := by decide
  have hd : ("." : String).length = 1 := by decide
  have ht : ("station_id_to_names_latest.json" : String).length = 31 := by decide
  rw [hu, hd, ht] at hl
  omega

/-! ## Claims -/

/-- C2: the JSON-serializable form of the station mapping keeps exactly the
keys of the original mapping (as plain integers) and replaces each set value
by the sorted list of its elements; the mapping with key 3 and the two name
variants of the example serializes to a JSON object with key "3" and the
lexicographically sorted value list. -/
theorem claim_C2_station_map_serialization :
    (∀ m : StationMap,
      (serializable_station_map m).map Prod.fst = m.map Prod.fst ∧
      ∀ k v, (k, v) ∈ m →
        (k, pySorted v) ∈ serializable_station_map m ∧
        (pySorted v).Perm v ∧ List.Sorted pyStrLe (pySorted v)) ∧
    jsonStationMap [(3, ["Kings X", "King\x27s Cross"])] =
      [("3", ["King\x27s Cross", "Kings X"])] := by
  refine ⟨fun m => ⟨?_, fun k v hkv => ⟨?_, ?_, ?_⟩⟩, ?_⟩
  · simp [serializable_station_map]
  · exact List.mem_map.2 ⟨(k, v), hkv, rfl⟩
  · exact List.perm_insertionSort _ v
  · exact List.sorted_insertionSort _ v
  · decide

/-- Witness for C2 at the concrete mapping with key 3 and an unsorted pair of
names. -/
theorem claim_C2_witness :
    ((3 : Int), pySorted ["b", "a"]) ∈
      serializable_station_map [((3 : Int), ["b", "a"])] :=
  ((claim_C2_station_map_serialization.1 [((3 : Int), ["b", "a"])]).2 3 ["b", "a"]
    (by simp)).1

/-- C8: the first file `create_clean_data` writes is the binary snapshot of
the loader's table at the returned pickle path, and reloading that snapshot
through the serialization contract reconstructs the very table the loader
returned. -/
theorem claim_C8_pickle_roundtrip (df : α) (m : StationMap)
    (bf out tsNow : String) (wp ts pOk lOk : Bool) :
    (writesIn (create_clean_data df m bf out tsNow wp ts pOk lOk).trace).head? =
      some ((create_clean_data df m bf out tsNow wp ts pOk lOk).pickle_fpath,
        Content.pickleDf df) ∧
    read_pickle (Content.pickleDf df) = some df := by
  constructor
  · simp [create_clean_data, writesIn]
  · rfl

/-- C10: an empty string passed for a directory override is falsy in Python,
so `args.csv_dir or default` (and likewise for the output directory) falls
back to the configuration-derived default; a non-empty override takes
effect. -/
theorem claim_C10_empty_override (d : String) :
    resolve_dir (some "") d = d ∧ resolve_dir none d = d ∧
    ∀ s : String, s ≠ "" → resolve_dir (some s) d = s := by
  refine ⟨rfl, rfl, fun s hs => ?_⟩
  simp [resolve_dir, String.isEmpty_iff, hs]

/-- Witness for C10: the empty override selects the default and a non-empty
override wins. -/
theorem claim_C10_witness :
    resolve_dir (some "") "cfg" = "cfg" ∧
    resolve_dir (some "given") "cfg" = "given" :=
  ⟨(claim_C10_empty_override "cfg").1,
   (claim_C10_empty_override "cfg").2.2 "given" (by decide)⟩

/-- C1: when parquet output is requested and the primary parquet write raises,
`create_clean_data` catches the failure, still writes the binary trip-table
snapshot, the JSON mapping, the sorted-list mapping pickle, the set-valued
mapping pickle and all their latest copies, and returns `none` as the parquet
path in its (pickle path, parquet path, station-map JSON path) triple. -/
theorem claim_C1_parquet_failure_degrades (df : α) (m : StationMap)
    (bf out tsNow : String) (ts lOk : Bool) :
    let r := create_clean_data df m bf out tsNow true ts false lOk
    let sm := serializable_station_map m
    let tsOpt : Option String := if ts then some tsNow else none
    r.parquet_fpath = none ∧
    r.pickle_fpath = os_path_join out (fmtName "cleaned_data" "pickle" tsOpt) ∧
    r.station_map_fpath =
      os_path_join out (fmtName "station_id_to_names" "json" tsOpt) ∧
    Event.write r.pickle_fpath (Content.pickleDf df) ∈ r.trace ∧
    Event.write r.station_map_fpath (Content.jsonMap sm) ∈ r.trace ∧
    Event.write (os_path_join out (fmtName "station_id_to_names" "pickle" tsOpt))
      (Content.pickleMap sm) ∈ r.trace ∧
    Event.write (os_path_join out (fmtName "station_names" "pickle" tsOpt))
      (Content.pickleRaw m) ∈ r.trace ∧
    Event.write (os_path_join out "cleaned_data_latest.pickle")
      (Content.pickleDf df) ∈ r.trace ∧
    Event.write (os_path_join out "station_id_to_names.json")
      (Content.jsonMap sm) ∈ r.trace ∧
    Event.write (os_path_join out "station_id_to_names_latest.pickle")
      (Content.pickleMap sm) ∈ r.trace ∧
    Event.write (os_path_join out "station_names_latest.pickle")
      (Content.pickleRaw m) ∈ r.trace := by
  cases ts <;> cases lOk <;> simp [create_clean_data, latestWrites]

/-- C5: in stations-only mode, `main` invokes the loader first and then writes
exactly two files — the timestamped-or-base station-names pickle and
`station_names_latest.pickle`, both holding the raw set-valued mapping — and
writes no trip-table file, no JSON mapping file and no sorted-list mapping
pickle. -/
theorem claim_C5_stations_only (α : Type) (m : StationMap)
    (csv out tsNow : String) (flag : Bool) :
    let t := main_only_stations α m csv out tsNow flag
    t.head? = some (Event.loadCleanData csv) ∧
    writesIn t =
      [(os_path_join out (fmtName "station_names" "pickle"
          (if flag then some tsNow else none)), Content.pickleRaw m),
       (os_path_join out "station_names_latest.pickle", Content.pickleRaw m)] ∧
    (t.filter isWrite).length = 2 ∧
    t.all (fun e => !isTripWrite e && !isJsonWrite e && !isMapPickleWrite e) = true := by
  cases flag <;>
    simp [main_only_stations, writesIn, isWrite, isTripWrite, isJsonWrite,
      isMapPickleWrite]

/-- C7: a primary artifact is named `<artifact>_<timestamp>.<ext>` when
timestamping is enabled and `<artifact>.<ext>` when it is disabled; the
timestamp string rendered from the wall clock has the `YYYYMMDD_HHMM` shape;
and a run with timestamping disabled touches only the nine unsuffixed file
names. -/
theorem claim_C7_naming_policy :
    (∀ a e t : String, t ≠ "" →
      fmtName a e (some t) = a ++ "_" ++ t ++ "." ++ e) ∧
    (∀ a e : String, fmtName a e none = a ++ "." ++ e) ∧
    (∀ now : ClockTime, isTimestampFormat (strftime_YmdHM now) = true) ∧
    (∀ (α : Type) (df : α) (m : StationMap) (bf out tsNow : String)
        (wp pOk lOk : Bool),
      ∀ p ∈ (create_clean_data df m bf out tsNow wp false pOk lOk).trace.filterMap
          eventPath,
        p ∈ [os_path_join out "cleaned_data.pickle",
             os_path_join out "cleaned_data.parquet",
             os_path_join out "station_id_to_names.json",
             os_path_join out "station_id_to_names.pickle",
             os_path_join out "station_names.pickle",
             os_path_join out "cleaned_data_latest.pickle",
             os_path_join out "cleaned_data_latest.parquet",
             os_path_join out "station_id_to_names_latest.pickle",
             os_path_join out "station_names_latest.pickle"]) := by
  refine ⟨fun a e t ht => ?_, fun a e => rfl, fun now => ?_, ?_⟩
  · simp [fmtName, String.isEmpty_iff, ht]
  · simp [strftime_YmdHM, pad4, pad2, isTimestampFormat, digitChar_mod_isDigit]
  · intro α df m bf out tsNow wp pOk lOk p hp
    cases hwp : wp && pOk <;> cases lOk <;>
      simp [create_clean_data, latestWrites, eventPath, fmtName, hwp] at hp ⊢ <;>
      tauto

/-- Witness for C7: the timestamped name at a concrete timestamp, and the path
of the base-named snapshot of a concrete untimestamped run confined to the
base-name list. -/
theorem claim_C7_witness :
    fmtName "cleaned_data" "pickle" (some "20240601_1234") =
      "cleaned_data" ++ "_" ++ "20240601_1234" ++ "." ++ "pickle" ∧
    "out/cleaned_data.pickle" ∈
      [os_path_join "out" "cleaned_data.pickle",
       os_path_join "out" "cleaned_data.parquet",
       os_path_join "out" "station_id_to_names.json",
       os_path_join "out" "station_id_to_names.pickle",
       os_path_join "out" "station_names.pickle",
       os_path_join "out" "cleaned_data_latest.pickle",
       os_path_join "out" "cleaned_data_latest.parquet",
       os_path_join "out" "station_id_to_names_latest.pickle",
       os_path_join "out" "station_names_latest.pickle"] :=
  ⟨claim_C7_naming_policy.1 "cleaned_data" "pickle" "20240601_1234" (by decide),
   claim_C7_naming_policy.2.2.2 Bool true [] "csvs" "out" "x" false false false
     "out/cleaned_data.pickle" (by decide)⟩

/-- C9: with timestamping disabled, the base station-map JSON path and the
latest station-map JSON path coincide at `station_id_to_names.json` in the
output directory, so the JSON mapping is written twice to that one path, while
the other four artifacts keep distinct base and latest file names. -/
theorem claim_C9_json_latest_collision (df : α) (m : StationMap)
    (bf out tsNow : String) (wp pOk lOk : Bool) :
    let r := create_clean_data df m bf out tsNow wp false pOk lOk
    let sm := serializable_station_map m
    r.station_map_fpath = os_path_join out "station_id_to_names.json" ∧
    os_path_join out (fmtName "station_id_to_names" "json" none) =
      os_path_join out "station_id_to_names.json" ∧
    r.trace.filter isJsonWrite =
      [Event.write (os_path_join out "station_id_to_names.json")
        (Content.jsonMap sm),
       Event.write (os_path_join out "station_id_to_names.json")
        (Content.jsonMap sm)] ∧
    fmtName "cleaned_data" "pickle" none ≠ "cleaned_data_latest.pickle" ∧
    fmtName "cleaned_data" "parquet" none ≠ "cleaned_data_latest.parquet" ∧
    fmtName "station_id_to_names" "pickle" none ≠
      "station_id_to_names_latest.pickle" ∧
    fmtName "station_names" "pickle" none ≠ "station_names_latest.pickle" := by
  have hjson : fmtName "station_id_to_names" "json" none =
      "station_id_to_names.json" := by decide
  cases hwp : wp && pOk <;> cases lOk <;>
    simp +decide [create_clean_data, latestWrites, isJsonWrite, hjson, hwp]

/-- C4 counterexample: in a concrete full run with parquet enabled and both
parquet writes succeeding, the station-map JSON artifact is produced, yet no
file named `station_id_to_names_latest.json` is ever written — the latest JSON
copy does not carry a `*_latest.*` name. -/
theorem claim_C4_counterexample :
    ((create_clean_data true [((3 : Int), ["A"])] "csvs" "out" "20240101_0101"
        true true true true).trace.filterMap eventPath).contains
      "out/station_id_to_names_20240101_0101.json" = true ∧
    ((create_clean_data true [((3 : Int), ["A"])] "csvs" "out" "20240101_0101"
        true true true true).trace.filterMap eventPath).contains
      "out/station_id_to_names_latest.json" = false := by
  decide

/-- C4 (amended): in every run whose timestamp string has the `YYYYMMDD_HHMM`
shape the wall-clock formatter produces, the trip-table pickle, trip-table
parquet (when parquet output is requested and both parquet writes succeed),
station-map pickle and station-names pickle each get an unsuffixed
`*_latest.*` copy; the latest copy of the station-map JSON is instead written
to `station_id_to_names.json`, and no run ever writes a file named
`station_id_to_names_latest.json`. -/
theorem claim_C4_amended (df : α) (m : StationMap) (bf out tsNow : String)
    (ts wp pOk lOk : Bool) (hts : isTimestampFormat tsNow = true) :
    Event.write (os_path_join out "cleaned_data_latest.pickle")
      (Content.pickleDf df) ∈
      (create_clean_data df m bf out tsNow wp ts pOk lOk).trace ∧
    ((wp && pOk && lOk) = true →
      Event.write (os_path_join out "cleaned_data_latest.parquet")
        (Content.parquetDf df) ∈
        (create_clean_data df m bf out tsNow wp ts pOk lOk).trace) ∧
    Event.write (os_path_join out "station_id_to_names_latest.pickle")
      (Content.pickleMap (serializable_station_map m)) ∈
      (create_clean_data df m bf out tsNow wp ts pOk lOk).trace ∧
    Event.write (os_path_join out "station_names_latest.pickle")
      (Content.pickleRaw m) ∈
      (create_clean_data df m bf out tsNow wp ts pOk lOk).trace ∧
    Event.write (os_path_join out "station_id_to_names.json")
      (Content.jsonMap (serializable_station_map m)) ∈
      (create_clean_data df m bf out tsNow wp ts pOk lOk).trace ∧
    os_path_join out "station_id_to_names_latest.json" ∉
      (create_clean_data df m bf out tsNow wp ts pOk lOk).trace.filterMap
        eventPath := by
  have hlen : tsNow.length = 13 := by
    simp only [isTimestampFormat, Bool.and_eq_true, beq_iff_eq] at hts
    exact hts.1.1.1
  have h1 := fmtName_ts_ne_latest_json "cleaned_data" "pickle" tsNow hlen (by decide)
  have h2 := fmtName_ts_ne_latest_json "cleaned_data" "parquet" tsNow hlen (by decide)
  have h3 := fmtName_ts_ne_latest_json "station_id_to_names" "json" tsNow hlen
    (by decide)
  have h4 := fmtName_ts_ne_latest_json "station_id_to_names" "pickle" tsNow hlen
    (by decide)
  have h5 := fmtName_ts_ne_latest_json "station_names" "pickle" tsNow hlen (by decide)
  have b1 : ("station_id_to_names_latest.json" : String) ≠
      fmtName "cleaned_data" "pickle" none := by decide
  have b2 : ("station_id_to_names_latest.json" : String) ≠
      fmtName "cleaned_data" "parquet" none := by decide
  have b3 : ("station_id_to_names_latest.json" : String) ≠
      fmtName "station_id_to_names" "json" none := by decide
  have b4 : ("station_id_to_names_latest.json" : String) ≠
      fmtName "station_id_to_names" "pickle" none := by decide
  have b5 : ("station_id_to_names_latest.json" : String) ≠
      fmtName "station_names" "pickle" none := by decide
  refine ⟨?_, ?_, ?_, ?_, ?_, ?_⟩
  · cases hwp : wp && pOk <;> cases lOk <;>
      simp [create_clean_data, latestWrites, hwp]
  · intro hflags
    have hw : wp = true := by revert hflags; cases wp <;> simp
    have hp : pOk = true := by revert hflags; cases pOk <;> simp
    have hl : lOk = true := by revert hflags; cases lOk <;> simp
    subst hw; subst hp; subst hl
    simp [create_clean_data, latestWrites]
  · cases hwp : wp && pOk <;> cases lOk <;>
      simp [create_clean_data, latestWrites, hwp]
  · cases hwp : wp && pOk <;> cases lOk <;>
      simp [create_clean_data, latestWrites, hwp]
  · cases hwp : wp && pOk <;> cases lOk <;>
      simp [create_clean_data, latestWrites, hwp]
  · intro hmem
    cases ts <;> cases hwp : wp && pOk <;> cases hlk : lOk <;>
      simp +decide [create_clean_data, latestWrites, eventPath, hwp, hlk,
        os_path_join_right_inj, h1, h2, h3, h4, h5, b1, b2, b3, b4, b5] at hmem

/-- Witness for C4: a concrete run with the real timestamp shape has the
latest trip-table copies, discharging the format hypothesis and the parquet
success condition. -/
theorem claim_C4_witness :
    Event.write (os_path_join "out" "cleaned_data_latest.pickle")
      (Content.pickleDf true) ∈
      (create_clean_data true ([] : StationMap) "csvs" "out" "20240101_0101"
        true true true true).trace ∧
    Event.write (os_path_join "out" "cleaned_data_latest.parquet")
      (Content.parquetDf true) ∈
      (create_clean_data true ([] : StationMap) "csvs" "out" "20240101_0101"
        true true true true).trace :=
  ⟨(claim_C4_amended true ([] : StationMap) "csvs" "out" "20240101_0101"
      true true true true (by decide)).1,
   (claim_C4_amended true ([] : StationMap) "csvs" "out" "20240101_0101"
      true true true true (by decide)).2.1 (by decide)⟩

/-- C6 counterexample: a concrete stations-only invocation writes its two
files without any directory-creation event, so the output directory is not
created on that path. -/
theorem claim_C6_counterexample :
    ((main_only_stations Bool [((3 : Int), ["A"])] "csvs" "out" "x" true).filter
      isWrite).length = 2 ∧
    (main_only_stations Bool [((3 : Int), ["A"])] "csvs" "out" "x" true).all
      (fun e => !isMkdirs e) = true := by
  decide

/-- C6 (amended): the full pipeline creates the output directory — recursively
and idempotently, with no error when it already exists — before any file is
written; the stations-only mode, however, writes its files without creating
the output directory. -/
theorem claim_C6_amended :
    (∀ (α : Type) (df : α) (m : StationMap) (bf out tsNow : String)
        (wp ts pOk lOk : Bool),
      (create_clean_data df m bf out tsNow wp ts pOk lOk).trace.take 2 =
        [Event.loadCleanData bf, Event.mkdirs out] ∧
      ((create_clean_data df m bf out tsNow wp ts pOk lOk).trace.takeWhile
        (fun e => !isMkdirs e)).all (fun e => !isWrite e) = true) ∧
    (∀ (fs : DirTree) (p : List String),
      ensure_dir fs p =
        Except.ok (fs ++ (ancestors p).filter (fun q => !decide (q ∈ fs))) ∧
      ∀ q ∈ ancestors p,
        q ∈ fs ++ (ancestors p).filter (fun q => !decide (q ∈ fs))) ∧
    (∀ (fs fs' : DirTree) (p : List String),
      ensure_dir fs p = Except.ok fs' → ensure_dir fs' p = Except.ok fs') ∧
    (∀ (α : Type) (m : StationMap) (csv out tsNow : String) (flag : Bool),
      (main_only_stations α m csv out tsNow flag).all
        (fun e => !isMkdirs e) = true) := by
  refine ⟨?_, ?_, ?_, ?_⟩
  · intro α df m bf out tsNow wp ts pOk lOk
    constructor
    · simp [create_clean_data]
    · simp [create_clean_data, isMkdirs, isWrite]
  · intro fs p
    refine ⟨by simp [ensure_dir, os_makedirs], fun q hq => ?_⟩
    by_cases hf : q ∈ fs
    · exact List.mem_append.2 (Or.inl hf)
    · exact List.mem_append.2 (Or.inr (List.mem_filter.2 ⟨hq, by simp [hf]⟩))
  · intro fs fs' p h
    have hfs : fs' = fs ++ (ancestors p).filter (fun q => !decide (q ∈ fs)) := by
      have h2 := h
      simp [ensure_dir, os_makedirs] at h2
      exact h2.symm
    have hsub : ∀ q ∈ ancestors p, q ∈ fs' := by
      intro q hq
      by_cases hf : q ∈ fs
      · exact hfs ▸ List.mem_append.2 (Or.inl hf)
      · exact hfs ▸ List.mem_append.2 (Or.inr (List.mem_filter.2 ⟨hq, by simp [hf]⟩))
    have hnil : (ancestors p).filter (fun q => !decide (q ∈ fs')) = [] :=
      List.filter_eq_nil_iff.2 (fun q hq => by simp [hsub q hq])
    simp [ensure_dir, os_makedirs, hnil]
  · intro α m csv out tsNow flag
    cases flag <;> simp [main_only_stations, isMkdirs]

/-- Witness for C6: creating a directory that already exists succeeds and
changes nothing. -/
theorem claim_C6_witness :
    ensure_dir [["out"]] ["out"] = Except.ok [["out"]] :=
  claim_C6_amended.2.2.1 [] [["out"]] ["out"] (by rfl)

/-- C3: every artifact written under a primary (timestamped or base) name has
a latest copy with identical content written in the block of latest writes
that closes the trace, after all primary writes and independent of the
timestamp toggle; the one exception the fallback policy allows is the latest
parquet copy, whose own failure is caught, removes only that single write and
leaves the rest of the run — including the returned paths — unchanged. -/
theorem claim_C3_latest_copies (df : α) (m : StationMap)
    (bf out tsNow : String) (wp ts pOk lOk : Bool) :
    (∃ primary,
      (create_clean_data df m bf out tsNow wp ts pOk lOk).trace =
        primary ++ latestWrites out df m wp pOk lOk ∧
      writesIn primary =
        (os_path_join out
            (fmtName "cleaned_data" "pickle" (if ts then some tsNow else none)),
          Content.pickleDf df) ::
        ((if wp && pOk then
            [(os_path_join out
                (fmtName "cleaned_data" "parquet" (if ts then some tsNow else none)),
              Content.parquetDf df)]
          else []) ++
         [(os_path_join out
             (fmtName "station_id_to_names" "json" (if ts then some tsNow else none)),
           Content.jsonMap (serializable_station_map m)),
          (os_path_join out
             (fmtName "station_id_to_names" "pickle" (if ts then some tsNow else none)),
           Content.pickleMap (serializable_station_map m)),
          (os_path_join out
             (fmtName "station_names" "pickle" (if ts then some tsNow else none)),
           Content.pickleRaw m)])) ∧
    (∀ c ∈ contentsIn (create_clean_data df m bf out tsNow wp ts pOk lOk).trace,
      c ∈ contentsIn (latestWrites out df m wp pOk lOk) ∨
      (lOk = false ∧ c = Content.parquetDf df)) ∧
    (∃ pT pF,
      (create_clean_data df m bf out tsNow wp true pOk lOk).trace =
        pT ++ latestWrites out df m wp pOk lOk ∧
      (create_clean_data df m bf out tsNow wp false pOk lOk).trace =
        pF ++ latestWrites out df m wp pOk lOk) ∧
    (∃ x y,
      (create_clean_data df m bf out tsNow wp ts pOk true).trace =
        x ++ (if wp && pOk then
          [Event.write (os_path_join out "cleaned_data_latest.parquet")
            (Content.parquetDf df)]
        else []) ++ y ∧
      (create_clean_data df m bf out tsNow wp ts pOk false).trace = x ++ y) ∧
    (create_clean_data df m bf out tsNow wp ts pOk false).pickle_fpath =
      (create_clean_data df m bf out tsNow wp ts pOk lOk).pickle_fpath ∧
    (create_clean_data df m bf out tsNow wp ts pOk false).parquet_fpath =
      (create_clean_data df m bf out tsNow wp ts pOk lOk).parquet_fpath ∧
    (create_clean_data df m bf out tsNow wp ts pOk false).station_map_fpath =
      (create_clean_data df m bf out tsNow wp ts pOk lOk).station_map_fpath := by
  refine ⟨⟨_, create_trace_decomp df m bf out tsNow wp ts pOk lOk, ?_⟩, ?_,
    ⟨_, _, create_trace_decomp df m bf out tsNow wp true pOk lOk,
      create_trace_decomp df m bf out tsNow wp false pOk lOk⟩, ?_, rfl, rfl, rfl⟩
  · cases hwp : wp && pOk <;> simp [writesIn, hwp]
  · intro c hc
    cases ts <;> cases hwp : wp && pOk <;> cases lOk <;>
      simp [create_clean_data, latestWrites, contentsIn, hwp] at hc ⊢ <;>
      tauto
  · refine ⟨Event.loadCleanData bf :: Event.mkdirs out ::
      Event.write (os_path_join out
          (fmtName "cleaned_data" "pickle" (if ts then some tsNow else none)))
        (Content.pickleDf df) ::
      ((if wp && pOk then
          [Event.write (os_path_join out
              (fmtName "cleaned_data" "parquet" (if ts then some tsNow else none)))
            (Content.parquetDf df)]
        else []) ++
       [Event.write (os_path_join out
           (fmtName "station_id_to_names" "json" (if ts then some tsNow else none)))
         (Content.jsonMap (serializable_station_map m)),
        Event.write (os_path_join out
           (fmtName "station_id_to_names" "pickle" (if ts then some tsNow else none)))
         (Content.pickleMap (serializable_station_map m)),
        Event.write (os_path_join out
           (fmtName "station_names" "pickle" (if ts then some tsNow else none)))
         (Content.pickleRaw m),
        Event.write (os_path_join out "cleaned_data_latest.pickle")
         (Content.pickleDf df)]),
      [Event.write (os_path_join out "station_id_to_names.json")
        (Content.jsonMap (serializable_station_map m)),
       Event.write (os_path_join out "station_id_to_names_latest.pickle")
        (Content.pickleMap (serializable_station_map m)),
       Event.write (os_path_join out "station_names_latest.pickle")
        (Content.pickleRaw m)], ?_, ?_⟩
    · cases hwp : wp && pOk <;> simp [create_clean_data, latestWrites, hwp]
    · cases hwp : wp && pOk <;> simp [create_clean_data, latestWrites, hwp]

/-- Witness for C3: in a concrete run, the snapshot content written under the
primary name recurs in the latest-copy block. -/
theorem claim_C3_witness :
    Content.pickleDf true ∈
      contentsIn (latestWrites "out" true ([] : StationMap) true true true) ∨
    (true = false ∧ Content.pickleDf true = Content.parquetDf true) :=
  (claim_C3_latest_copies true ([] : StationMap) "csvs" "out" "20240101_0101"
      true true true true).2.1 (Content.pickleDf true) (by decide)

end Pfeffel
